import Mathlib

/-!
Verification of the folder/session orchestration core of a multi-folder
CMake extension manager, shallowly embedded from `src/unnamed/part_000`
(the `ExtensionManager` class).  Sessions are the per-folder `CMakeTools`
instances; the dispatcher is the family of `mapCMakeTools` overloads; the
arbiter is the active-folder handling in the constructor handlers,
`selectActiveFolder` and `_onDidChangeActiveTextEditor`.
-/

/-! ## Dispatcher model -/

/-- A per-folder session as the dispatcher sees it: its folder key
(`cmt.folder.uri.fsPath`) and its nullable active kit (`cmt.activeKit`). -/
structure Session where
  key : String
  activeKit : Option String
  deriving DecidableEq, Repr

/-- Outcome of one interactive kit selection (`this.selectKit()`), as observed
by `_ensureActiveKit`: whether the user chose a kit (the boolean returned by
`selectKit`) and the session's `activeKit` after the call returns (the kit may
also have been set "in other way such as setKitByName", per the source
comment). -/
structure KitSelection where
  didChooseKit : Bool
  kitAfter : Option String
  deriving DecidableEq, Repr

/-- Environment giving, per folder key, the outcome of the interactive kit
selection were it to run for that session. -/
abbrev KitSelEnv := String → KitSelection

/-- Embedding of `ExtensionManager._ensureActiveKit` (part_000 lines 189-209)
for a non-undefined `cmt` argument, which is how every `mapCMakeTools` branch
calls it: if the session has an active kit, succeed; otherwise run the
interactive selection; if the user did not choose a kit and no kit was set by
other means, fail; otherwise succeed iff a kit is now set.  Returns the
boolean together with the (possibly kit-updated) session. -/
def ensureActiveKit (sel : KitSelEnv) (cmt : Session) : Bool × Session :=
  if cmt.activeKit.isSome then (true, cmt)
  else
    let out := sel cmt.key
    let cmt2 := { cmt with activeKit := out.kitAfter }
    if !out.didChooseKit && cmt2.activeKit.isNone then (false, cmt2)
    else (cmt2.activeKit.isSome, cmt2)

/-- Observable outcome of one dispatcher call.  `result` is the value the
async function resolves with: `some n` for the integer `n`, `none` for the
JavaScript `undefined` (a function body that falls off the end).  `invoked`
lists, in order, the folder keys on which the wrapped operation `fn` was
actually invoked.  `errorReported` records whether `rollbar.error` fired. -/
structure DispatchOut where
  result : Option Int
  invoked : List String
  errorReported : Bool
  deriving DecidableEq, Repr

/-- Embedding of the `cmt === undefined` branch of `mapCMakeTools`
(part_000 lines 599-608): resolve the active folder; if present, run
ensure-kit then the operation (or resolve -1 when ensure-kit fails); if no
active folder, report an error via rollbar and return 0. -/
def mapCMakeToolsActive (sel : KitSelEnv) (active : Option Session)
    (op : Session → Int) : DispatchOut :=
  match active with
  | some cmt =>
    let ek := ensureActiveKit sel cmt
    if ek.1 then ⟨some (op ek.2), [ek.2.key], false⟩
    else ⟨some (-1), [], false⟩
  | none => ⟨some 0, [], true⟩

/-- Embedding of the `cmt instanceof CMakeTools` branch of `mapCMakeTools`
(part_000 lines 609-613): ensure-kit on the given session, then run the
operation; resolve -1 when ensure-kit fails. -/
def mapCMakeToolsOne (sel : KitSelEnv) (cmt : Session)
    (op : Session → Int) : DispatchOut :=
  let ek := ensureActiveKit sel cmt
  if ek.1 then ⟨some (op ek.2), [ek.2.key], false⟩
  else ⟨some (-1), [], false⟩

/-- Embedding of the all-folders branch of `mapCMakeTools` (part_000 lines
614-628): iterate the registry in order; for each folder run ensure-kit, and
on success run the operation; a truthy (non-zero) result is returned at once,
ending the loop; an ensure-kit failure resolves -1 at once; if the loop
completes, resolve 0. -/
def mapCMakeToolsAll (sel : KitSelEnv) (folders : List Session)
    (op : Session → Int) : DispatchOut :=
  match folders with
  | [] => ⟨some 0, [], false⟩
  | f :: rest =>
    let ek := ensureActiveKit sel f
    if ek.1 then
      let retc := op ek.2
      if retc ≠ 0 then ⟨some retc, [ek.2.key], false⟩
      else
        let r := mapCMakeToolsAll sel rest op
        ⟨r.result, ek.2.key :: r.invoked, r.errorReported⟩
    else ⟨some (-1), [], false⟩

/-- The session a folder's entry holds after `_ensureActiveKit` has run. -/
def kitUpd (sel : KitSelEnv) (s : Session) : Session :=
  (ensureActiveKit sel s).2

/-- First non-zero element of a result list, 0 if none. -/
def firstNonzero : List Int → Int
  | [] => 0
  | r :: rest => if r ≠ 0 then r else firstNonzero rest

/-- Keys of the sessions the fan-out loop invokes the operation on: every
session in registry order up to and including the first whose operation
returns non-zero. -/
def invokedUpTo (sel : KitSelEnv) (op : Session → Int) : List Session → List String
  | [] => []
  | f :: rest =>
    let s2 := kitUpd sel f
    if op s2 ≠ 0 then [s2.key] else s2.key :: invokedUpTo sel op rest

/-- Embedding of `ExtensionManager.mapCMakeToolsFolder` (part_000 lines
631-633).  The body runs
`this.mapCMakeTools(this._folders.get(folder)?.cmakeTools, fn)` but has no
return statement, so the async function always resolves the JavaScript
`undefined` (modelled `none`) while the inner dispatch still runs for its
side effects.  The registry lookup is the folder controller's
`get(folderKey) -> Session | absent` (folders.ts is not part of the sources;
Modelled from the spec: lookup by key, absent when missing); an absent
session, including the no-folder-argument case, makes the inner call take the
active-folder branch of `mapCMakeTools`. -/
def mapCMakeToolsFolder (sel : KitSelEnv) (registry : List Session)
    (active : Option Session) (folder : Option String)
    (op : Session → Int) : DispatchOut :=
  let cmt := folder.bind (fun k => registry.find? (fun s => s.key = k))
  let inner := match cmt with
    | some c => mapCMakeToolsOne sel c op
    | none => mapCMakeToolsActive sel active op
  ⟨none, inner.invoked, inner.errorReported⟩

/-- Embedding of `ExtensionManager.build` (part_000 line 656):
`return await this.mapCMakeToolsFolder(folder, cmt => cmt.build(name))`.
The per-session build is abstracted as `buildOp name session`, an integer
exit code. -/
def build (sel : KitSelEnv) (registry : List Session) (active : Option Session)
    (buildOp : Option String → Session → Int) (folder : Option String)
    (name : Option String) : DispatchOut :=
  mapCMakeToolsFolder sel registry active folder (buildOp name)

/-- Embedding of `ExtensionManager.buildAll` (part_000 line 658):
`return await this.mapCMakeTools(cmt => cmt.build(name))`. -/
def buildAll (sel : KitSelEnv) (folders : List Session)
    (buildOp : Option String → Session → Int) (name : Option String) :
    DispatchOut :=
  mapCMakeToolsAll sel folders (buildOp name)

/-- JavaScript truthiness of an awaited command result: `undefined` is falsy,
a number is truthy iff non-zero. -/
def truthy : Option Int → Bool
  | none => false
  | some n => n != 0

/-- Embedding of `ExtensionManager.cleanRebuild` (part_000 lines 691-697):
build target "clean"; if the awaited result is truthy return it, else run the
plain build and return its result.  The observation sequence concatenates the
two steps' invocations. -/
def cleanRebuild (sel : KitSelEnv) (registry : List Session)
    (active : Option Session) (buildOp : Option String → Session → Int)
    (folder : Option String) : DispatchOut :=
  let retc := build sel registry active buildOp folder (some "clean")
  if truthy retc.result then retc
  else
    let r2 := build sel registry active buildOp folder none
    ⟨r2.result, retc.invoked ++ r2.invoked, retc.errorReported || r2.errorReported⟩

/-- Embedding of `ExtensionManager.cleanRebuildAll` (part_000 lines 699-705):
same shape as `cleanRebuild`, routed through `buildAll`. -/
def cleanRebuildAll (sel : KitSelEnv) (folders : List Session)
    (buildOp : Option String → Session → Int) : DispatchOut :=
  let retc := buildAll sel folders buildOp (some "clean")
  if truthy retc.result then retc
  else
    let r2 := buildAll sel folders buildOp none
    ⟨r2.result, retc.invoked ++ r2.invoked, retc.errorReported || r2.errorReported⟩

/-! ## Concrete demonstration inputs -/

/-- A kit-selection environment in which the user always declines and no kit
gets set by other means. -/
def demoSel : KitSelEnv := fun _ => ⟨false, none⟩

/-- Three sessions with kits already set, in registry order. -/
def demoFolders : List Session :=
  [⟨"A", some "gcc"⟩, ⟨"B", some "gcc"⟩, ⟨"C", some "gcc"⟩]

/-- An operation that fails (code 1) on session B and succeeds elsewhere. -/
def demoOp : Session → Int := fun s => if s.key = "B" then 1 else 0

/-- A single session with a kit set. -/
def sOne : Session := ⟨"A", some "gcc"⟩

/-- A one-session registry. -/
def regOne : List Session := [sOne]

/-- A session with no kit set. -/
def sNoKit : Session := ⟨"N", none⟩

/-- A per-session build that fails (code 1) on target "clean" and succeeds
(code 0) on the default target. -/
def bopClean1 : Option String → Session → Int :=
  fun name _ => if name = some "clean" then 1 else 0

/-- A per-session build that always succeeds with code 0. -/
def bopZero : Option String → Session → Int := fun _ _ => 0

/-! ## Claims about the dispatcher -/

/-- C1: for every registry in order, when ensure-kit succeeds for every
session, the all-folders dispatch runs the operation sequentially, resolves
the first non-zero result having invoked the operation exactly on the
sessions up to and including the first failing one (so never on a later
session), and resolves 0 (with every session invoked) when all operations
return zero. -/
theorem runOnAll_fail_fast (sel : KitSelEnv) (op : Session → Int)
    (folders : List Session)
    (h : ∀ s ∈ folders, (ensureActiveKit sel s).1 = true) :
    (mapCMakeToolsAll sel folders op).result
        = some (firstNonzero (folders.map (fun s => op (kitUpd sel s))))
    ∧ (mapCMakeToolsAll sel folders op).invoked = invokedUpTo sel op folders := by
  induction folders with
  | nil => exact ⟨rfl, rfl⟩
  | cons f rest ih =>
    have hf : (ensureActiveKit sel f).1 = true := h f (by simp)
    have ihr := ih (fun s hs => h s (by simp [hs]))
    by_cases hz : op (kitUpd sel f) ≠ 0
    · constructor
      · simp [mapCMakeToolsAll, hf, kitUpd, firstNonzero, invokedUpTo] at *
        simp [hz]
      · simp [mapCMakeToolsAll, hf, kitUpd, firstNonzero, invokedUpTo] at *
        simp [hz]
    · push_neg at hz
      constructor
      · simp [mapCMakeToolsAll, hf, kitUpd, firstNonzero, invokedUpTo] at *
        simp [hz, ihr.1]
      · simp [mapCMakeToolsAll, hf, kitUpd, firstNonzero, invokedUpTo] at *
        simp [hz, ihr.2]

/-- Witness for C1: the spec scenario S1 (code 0), S2 (code 1), S3 — the
fan-out returns 1 and the operation runs only on A and B, never on C. -/
theorem runOnAll_fail_fast_witness :
    (∀ s ∈ demoFolders, (ensureActiveKit demoSel s).1 = true)
    ∧ ((mapCMakeToolsAll demoSel demoFolders demoOp).result
          = some (firstNonzero (demoFolders.map (fun s => demoOp (kitUpd demoSel s))))
        ∧ (mapCMakeToolsAll demoSel demoFolders demoOp).invoked
          = invokedUpTo demoSel demoOp demoFolders) :=
  ⟨by decide, runOnAll_fail_fast demoSel demoOp demoFolders (by decide)⟩

/-- C2 (refuted by the code, which contradicts its own call sites): every
call through the folder variant resolves `undefined`, never an integer,
because `mapCMakeToolsFolder` contains no return statement.  The last two
conjuncts evaluate the failing input: a session whose build succeeds with
code 0 — the inner dispatch computes `some 0` and the operation does run,
yet the command resolves `none`. -/
theorem folder_variant_resolves_undefined :
    (∀ (sel : KitSelEnv) (registry : List Session) (active : Option Session)
        (folder : Option String) (op : Session → Int),
        (mapCMakeToolsFolder sel registry active folder op).result = none)
    ∧ (mapCMakeToolsOne demoSel sOne (bopZero none)).result = some 0
    ∧ build demoSel regOne (some sOne) bopZero (some "A") none
        = ⟨none, ["A"], false⟩ :=
  ⟨fun _ _ _ _ _ => rfl, by decide, by decide⟩

/-- C3 counterexample: dispatching on the active session while no folder is
open resolves 0 — exactly the success code — so the failure is not
surfaced as a result value distinguishable from success (the error goes only
to the out-of-band rollbar channel). -/
theorem noActiveFolder_returns_success_code :
    mapCMakeToolsActive demoSel none demoOp = ⟨some 0, [], true⟩ := by decide

/-- C3 amended: with no active session, the dispatch invokes no operation
and reports the no-active-folder error out of band, but resolves 0, a result
value identical to the success code. -/
theorem noActiveFolder_reports_and_returns_zero (sel : KitSelEnv)
    (op : Session → Int) :
    mapCMakeToolsActive sel none op = ⟨some 0, [], true⟩ := rfl

/-- C4: when the targeted session has no active kit and the interactive kit
selection is declined with no kit set by other means, both dispatch shapes
resolve -1 (a failure result) without ever invoking the operation — the
empty `invoked` list means no operation ran, so the session is left idle. -/
theorem kit_declined_fails_without_invoking (sel : KitSelEnv) (s : Session)
    (op : Session → Int)
    (hkit : s.activeKit = none)
    (hchoose : (sel s.key).didChooseKit = false)
    (hafter : (sel s.key).kitAfter = none) :
    mapCMakeToolsOne sel s op = ⟨some (-1), [], false⟩
    ∧ mapCMakeToolsActive sel (some s) op = ⟨some (-1), [], false⟩ := by
  have he : ensureActiveKit sel s = (false, { s with activeKit := none }) := by
    simp [ensureActiveKit, hkit, hchoose, hafter]
  exact ⟨by simp [mapCMakeToolsOne, he], by simp [mapCMakeToolsActive, he]⟩

/-- Witness for C4 at a concrete kit-less session with a declining user. -/
theorem kit_declined_witness :
    (sNoKit.activeKit = none
      ∧ (demoSel sNoKit.key).didChooseKit = false
      ∧ (demoSel sNoKit.key).kitAfter = none)
    ∧ (mapCMakeToolsOne demoSel sNoKit demoOp = ⟨some (-1), [], false⟩
        ∧ mapCMakeToolsActive demoSel (some sNoKit) demoOp
          = ⟨some (-1), [], false⟩) :=
  ⟨⟨by decide, by decide, by decide⟩,
    kit_declined_fails_without_invoking demoSel sNoKit demoOp
      (by decide) (by decide) (by decide)⟩

/-- C5 (refuted by the code for the per-folder variant): on a session whose
"clean" build fails with code 1, the composite `cleanRebuild` still invokes
the second step (the session key appears twice in the invocation trace) and
resolves `undefined` — the clean result was dropped by the return-less
`mapCMakeToolsFolder`.  The all-folders variant `cleanRebuildAll`, which goes
through the value-returning `mapCMakeTools`, does short-circuit with 1 after
a single invocation, as the claim states. -/
theorem cleanRebuild_ignores_clean_failure :
    (mapCMakeToolsOne demoSel sOne (bopClean1 (some "clean"))).result = some 1
    ∧ cleanRebuild demoSel regOne (some sOne) bopClean1 (some "A")
        = ⟨none, ["A", "A"], false⟩
    ∧ cleanRebuildAll demoSel regOne bopClean1 = ⟨some 1, ["A"], false⟩ := by
  exact ⟨by decide, by decide, by decide⟩

/-! ## Active-folder arbiter model

The registry of open folders is kept by the folder controller (folders.ts,
not among the sources).  Modelled from the spec: the Session Registry is the
set of open folder keys, one session per workspace folder, and the active
folder pointer is a stored key or empty.  The transitions below embed the
handlers that are in the sources: the constructor's add/remove handlers
(part_000 lines 57-83), `selectActiveFolder` (lines 323-338) and
`_onDidChangeActiveTextEditor` (lines 307-318). -/

/-- Registry of open folder keys in order (mirroring
`vscode.workspace.workspaceFolders`) together with the active-folder
pointer. -/
structure MgrState where
  registry : List String
  active : Option String
  deriving DecidableEq, Repr

/-- External events driving the arbiter: folder add/remove, an explicit user
pick (`_setActiveFolder(selection)` — the workspace-folder pick can only
return an open folder, expressed here as the membership guard), and an
editor-focus change carrying the key of the open folder owning the focused
document, if any (`getWorkspaceFolder` resolves only open folders). -/
inductive ArbEvent where
  | add (k : String)
  | remove (k : String)
  | select (k : String)
  | focus (doc : Option String)
  deriving DecidableEq, Repr

/-- One arbiter transition.
add: part_000 lines 57-61 — after the first folder is added
(`workspaceFolders.length === 1`) the active folder becomes
`workspaceFolders[0]`; otherwise the pointer is untouched.
remove: lines 75-83 — with no folders left the pointer is cleared; if the
removed folder was active, `workspaceFolders[0]` becomes active; else
untouched.
select: line 329 — `_setActiveFolder(selection)` with an open folder.
focus: lines 307-318 — if some workspace is open and the focused document
belongs to an open folder different from the active one, that folder becomes
active. -/
def stepEvent (s : MgrState) : ArbEvent → MgrState
  | .add k =>
    if k ∈ s.registry then s
    else
      let reg := s.registry ++ [k]
      if reg.length = 1 then ⟨reg, reg.head?⟩ else ⟨reg, s.active⟩
  | .remove k =>
    if k ∈ s.registry then
      let reg := s.registry.erase k
      if reg = [] then ⟨reg, none⟩
      else if s.active = some k then ⟨reg, reg.head?⟩
      else ⟨reg, s.active⟩
    else s
  | .select k =>
    if s.registry ≠ [] ∧ k ∈ s.registry then ⟨s.registry, some k⟩ else s
  | .focus doc =>
    match doc with
    | some ws =>
      if s.registry ≠ [] ∧ ws ∈ s.registry ∧ s.active ≠ some ws then
        ⟨s.registry, some ws⟩
      else s
    | none => s

/-- The startup state: no folders, no active pointer. -/
def arbInit : MgrState := ⟨[], none⟩

/-- Run a sequence of arbiter events from startup. -/
def runEvents (evs : List ArbEvent) : MgrState :=
  evs.foldl stepEvent arbInit

/-- The never-dangling property: the active pointer is empty or names a key
currently in the registry. -/
def activeInRegistry (s : MgrState) : Prop :=
  ∀ k, s.active = some k → k ∈ s.registry

/-- Each single transition preserves the never-dangling property. -/
theorem stepEvent_preserves (s : MgrState) (e : ArbEvent)
    (h : activeInRegistry s) : activeInRegistry (stepEvent s e) := by
  cases e with
  | add k =>
    by_cases hk : k ∈ s.registry
    · simpa [stepEvent, hk] using h
    · by_cases hlen : (s.registry ++ [k]).length = 1
      · intro j hj
        simp only [stepEvent, hk, if_false, hlen, if_true] at hj ⊢
        exact List.mem_of_mem_head? (Option.mem_def.mpr hj)
      · intro j hj
        simp only [stepEvent, hk, if_false, hlen, if_true] at hj ⊢
        exact List.mem_append_left _ (h j hj)
  | remove k =>
    by_cases hk : k ∈ s.registry
    · by_cases hemp : s.registry.erase k = []
      · intro j hj
        simp [stepEvent, hk, hemp] at hj
      · by_cases hact : s.active = some k
        · intro j hj
          simp only [stepEvent, hk, if_true, hemp, if_false, hact] at hj ⊢
          exact List.mem_of_mem_head? (Option.mem_def.mpr hj)
        · intro j hj
          simp only [stepEvent, hk, if_true, hemp, if_false, hact] at hj ⊢
          have hjk : j ≠ k := by
            intro heq
            exact hact (heq ▸ hj)
          exact (List.mem_erase_of_ne hjk).mpr (h j hj)
    · simpa [stepEvent, hk] using h
  | select k =>
    by_cases hc : s.registry ≠ [] ∧ k ∈ s.registry
    · have hstep : stepEvent s (.select k) = ⟨s.registry, some k⟩ := by
        simp only [stepEvent]
        rw [if_pos hc]
      intro j hj
      rw [hstep] at hj ⊢
      obtain rfl : k = j := by simpa using hj
      exact hc.2
    · have hstep : stepEvent s (.select k) = s := by
        simp only [stepEvent]
        rw [if_neg hc]
      intro j hj
      rw [hstep] at hj ⊢
      exact h j hj
  | focus doc =>
    cases doc with
    | none => simpa [stepEvent] using h
    | some ws =>
      by_cases hc : s.registry ≠ [] ∧ ws ∈ s.registry ∧ s.active ≠ some ws
      · have hstep : stepEvent s (.focus (some ws)) = ⟨s.registry, some ws⟩ := by
          simp only [stepEvent]
          rw [if_pos hc]
        intro j hj
        rw [hstep] at hj ⊢
        obtain rfl : ws = j := by simpa using hj
        exact hc.2.1
      · have hstep : stepEvent s (.focus (some ws)) = s := by
          simp only [stepEvent]
          rw [if_neg hc]
        intro j hj
        rw [hstep] at hj ⊢
        exact h j hj

/-- Folding any event sequence from a never-dangling state stays
never-dangling. -/
theorem foldl_preserves (evs : List ArbEvent) :
    ∀ (s : MgrState), activeInRegistry s →
      activeInRegistry (evs.foldl stepEvent s) := by
  induction evs with
  | nil => intro s h; exact h
  | cons e evs ih =>
    intro s h
    exact ih (stepEvent s e) (stepEvent_preserves s e h)

/-- C6: after any sequence of folder add/remove and active-folder
reassignment events, the active session pointer is empty or refers to a key
currently present in the registry — it never dangles. -/
theorem active_never_dangles (evs : List ArbEvent) :
    activeInRegistry (runEvents evs) :=
  foldl_preserves evs arbInit (fun _ h => Option.noConfusion h)

/-- Witness for C6: after adding A and B, selecting B, then removing B, the
arbiter reselects A and the pointer indeed lies in the registry. -/
theorem active_never_dangles_witness :
    "A" ∈ (runEvents [.add "A", .add "B", .select "B", .remove "B"]).registry :=
  active_never_dangles [.add "A", .add "B", .select "B", .remove "B"] "A"
    (by decide)

/-- Embedding of `ExtensionManager.selectActiveFolder` (part_000 lines
323-338): the whole body is guarded by
`workspaceFolders?.length && !autoSelectActiveFolder`; inside, a
cancelled pick does nothing, and a picked (open) folder becomes active and
its key is written to `workspaceState` under 'activeFolder'.  The second
component is the persisted key, `none` when nothing is written. -/
def selectActiveFolder (autoSelect : Bool) (pick : Option String)
    (s : MgrState) : MgrState × Option String :=
  if s.registry ≠ [] ∧ autoSelect = false then
    match pick with
    | some k =>
      if k ∈ s.registry then (⟨s.registry, some k⟩, some k) else (s, none)
    | none => (s, none)
  else (s, none)

/-- C7 counterexample: with the auto-select policy enabled, explicitly
picking folder B reassigns nothing (active stays A) and persists nothing —
refuting "reassigned unconditionally even when the auto-select policy is
enabled". -/
theorem selectActiveFolder_policy_cex :
    selectActiveFolder true (some "B") ⟨["A", "B"], some "A"⟩
      = (⟨["A", "B"], some "A"⟩, none) := by decide

/-- C7 amended: an explicit selection of an open folder reassigns the active
session and persists the chosen key only when the auto-select policy is
disabled (and some folder is open); with the policy enabled the command is a
no-op — no reassignment, no persistence. -/
theorem selectActiveFolder_disabled_policy_only (s : MgrState) (k : String)
    (hne : s.registry ≠ []) (hmem : k ∈ s.registry) :
    selectActiveFolder false (some k) s = (⟨s.registry, some k⟩, some k)
    ∧ ∀ pick, selectActiveFolder true pick s = (s, none) := by
  constructor
  · simp [selectActiveFolder, hne, hmem]
  · intro pick
    simp [selectActiveFolder]

/-- Witness for the amended C7 at a concrete two-folder state. -/
theorem selectActiveFolder_amended_witness :
    selectActiveFolder false (some "B") ⟨["A", "B"], some "A"⟩
      = (⟨["A", "B"], some "B"⟩, some "B") :=
  (selectActiveFolder_disabled_policy_only ⟨["A", "B"], some "A"⟩ "B"
    (by decide) (by decide)).1

/-- The editor-focus pipeline with the auto-select setting made explicit.
part_000 line 97 installs `_onDidChangeActiveTextEditor` unconditionally in
`_init`, and the handler (lines 307-318) never reads
`autoSelectActiveFolder`, so the policy parameter has no effect on the
transition: the call is exactly the focus handler embedded in
`stepEvent`. -/
def onFocusChange (autoSelect : Bool) (s : MgrState) (doc : Option String) :
    MgrState :=
  stepEvent s (.focus doc)

/-- C8 counterexample: with the auto-select policy disabled, focusing a
document of open folder B still reassigns the active session to B —
refuting "when the auto-select policy is disabled the active session is not
reassigned by the focus change". -/
theorem focusChange_policy_cex :
    onFocusChange false ⟨["A", "B"], some "A"⟩ (some "B")
      = ⟨["A", "B"], some "B"⟩ := by decide

/-- C8 amended: an editor-focus change to a document of a different open
folder reassigns the active session regardless of the auto-select policy;
the policy gates only the startup choice of active folder
(`_initActiveFolder`), not subsequent focus changes. -/
theorem focusChange_reassigns_regardless_of_policy (b : Bool) (s : MgrState)
    (k : String) (hmem : k ∈ s.registry) (hact : s.active ≠ some k) :
    onFocusChange b s (some k) = ⟨s.registry, some k⟩ := by
  have hne : s.registry ≠ [] := List.ne_nil_of_mem hmem
  simp [onFocusChange, stepEvent, hne, hmem, hact]

/-- Witness for the amended C8, here with the policy enabled. -/
theorem focusChange_amended_witness :
    onFocusChange true ⟨["A", "B"], some "A"⟩ (some "B")
      = ⟨["A", "B"], some "B"⟩ :=
  focusChange_reassigns_regardless_of_policy true ⟨["A", "B"], some "A"⟩ "B"
    (by decide) (by decide)

/-! ## Code-model subscription lifecycle -/

/-- Manager-side view of the code-model-changed wiring: the open folder keys,
the keys present in `_codeModelUpdateSubs` (the stored Disposable handles),
and the keys of sessions whose code-model-changed notification currently has
the manager's listener attached.  Attaching happens when
`onCodeModelChanged(...)` is called; the listener is detached only when the
returned handle's `dispose()` runs (the notification mechanism is the
editor's event API, external to the sources; Modelled from the spec:
subscriptions are released by disposing the handle, and only then). -/
structure CodeModelSubs where
  registry : List String
  subsMap : List String
  listeners : List String
  deriving DecidableEq, Repr

/-- Embedding of the `onAfterAddFolder` handler (part_000 lines 57-74): if
the folder key is already in `_codeModelUpdateSubs`, do nothing; otherwise
subscribe to the new session's change notifications (attaching the listener)
and store the handles under the folder key. -/
def cmAddFolder (st : CodeModelSubs) (k : String) : CodeModelSubs :=
  if k ∈ st.registry then st
  else
    let reg := st.registry ++ [k]
    if k ∈ st.subsMap then ⟨reg, st.subsMap, st.listeners⟩
    else ⟨reg, st.subsMap ++ [k], st.listeners ++ [k]⟩

/-- Embedding of the `onAfterRemoveFolder` handler (part_000 lines 75-76):
`this._codeModelUpdateSubs.delete(info.uri.fsPath)` — the folder key leaves
the handle map, but `dispose()` is never called on the stored handles, so the
attached listener set is unchanged.  Contrast `asyncDispose` (lines 222-229),
which does dispose every stored handle at extension teardown. -/
def cmRemoveFolder (st : CodeModelSubs) (k : String) : CodeModelSubs :=
  ⟨st.registry.erase k, st.subsMap.erase k, st.listeners⟩

/-- C9 (claim right, code wrong): adding folder A attaches the code-model
listener, but removing A only deletes the handle-map entry — the listener is
still attached after the session is gone, so the subscription does not exist
"exactly during the session's lifetime". -/
theorem removeFolder_leaks_code_model_sub :
    cmRemoveFolder (cmAddFolder ⟨[], [], []⟩ "A") "A" = ⟨[], [], ["A"]⟩ := by
  decide

/-! ## debugTargetAll / launchTargetAll fan-out -/

/-- One entry of the fan-out result array: either the dispatch outcome pushed
for a folder, or the unconditional `null` pushed right after it. -/
inductive FanEntry where
  | folderResult (out : DispatchOut)
  | nullEntry
  deriving DecidableEq, Repr

/-- Embedding of `ExtensionManager.debugTargetAll` (part_000 lines 768-777):
for each folder of the registry, push the two-argument
`mapCMakeTools(cmtFolder.cmakeTools, ...)` dispatch outcome (the
`if (cmtFolder)` guard always holds for a registry entry), then
unconditionally push `null` — still inside the loop. -/
def debugTargetAll (sel : KitSelEnv) (folders : List Session)
    (op : Session → Int) : List FanEntry :=
  match folders with
  | [] => []
  | f :: rest =>
    FanEntry.folderResult (mapCMakeToolsOne sel f op)
      :: FanEntry.nullEntry :: debugTargetAll sel rest op

/-- Embedding of `ExtensionManager.launchTargetAll` (part_000 lines 781-790),
identical in shape to `debugTargetAll`. -/
def launchTargetAll (sel : KitSelEnv) (folders : List Session)
    (op : Session → Int) : List FanEntry :=
  match folders with
  | [] => []
  | f :: rest =>
    FanEntry.folderResult (mapCMakeToolsOne sel f op)
      :: FanEntry.nullEntry :: launchTargetAll sel rest op

/-- C10: for a registry of n folders, `debugTargetAll` and `launchTargetAll`
return 2n entries, the entry at index 2i being folder i's dispatch outcome
and the entry at 2i+1 the unconditional null pushed inside the loop — not a
single trailing null, and not n entries. -/
theorem fanout_appends_null_per_folder (sel : KitSelEnv)
    (dOp lOp : Session → Int) (folders : List Session) :
    (debugTargetAll sel folders dOp).length = 2 * folders.length
    ∧ (launchTargetAll sel folders lOp).length = 2 * folders.length
    ∧ ∀ i f2, folders.get? i = some f2 →
        (debugTargetAll sel folders dOp).get? (2 * i)
          = some (FanEntry.folderResult (mapCMakeToolsOne sel f2 dOp))
        ∧ (debugTargetAll sel folders dOp).get? (2 * i + 1)
          = some FanEntry.nullEntry
        ∧ (launchTargetAll sel folders lOp).get? (2 * i)
          = some (FanEntry.folderResult (mapCMakeToolsOne sel f2 lOp))
        ∧ (launchTargetAll sel folders lOp).get? (2 * i + 1)
          = some FanEntry.nullEntry := by
  induction folders with
  | nil =>
    refine ⟨rfl, rfl, ?_⟩
    intro i f2 hf
    simp at hf
  | cons f rest ih =>
    obtain ⟨hd, hl, hidx⟩ := ih
    refine ⟨?_, ?_, ?_⟩
    · simp only [debugTargetAll, List.length_cons, hd]
      ring
    · simp only [launchTargetAll, List.length_cons, hl]
      ring
    · intro i f2 hf
      cases i with
      | zero =>
        have hf0 : f2 = f := by simpa using hf.symm
        subst hf0
        exact ⟨rfl, rfl, rfl, rfl⟩
      | succ j =>
        have hf2 : rest.get? j = some f2 := by simpa using hf
        have hrec := hidx j f2 hf2
        have e1 : 2 * (j + 1) = 2 * j + 1 + 1 := by ring
        have e2 : 2 * (j + 1) + 1 = 2 * j + 1 + 1 + 1 := by ring
        refine ⟨?_, ?_, ?_, ?_⟩
        · rw [e1]
          simp only [debugTargetAll, List.get?_cons_succ]
          exact hrec.1
        · rw [e2]
          simp only [debugTargetAll, List.get?_cons_succ]
          exact hrec.2.1
        · rw [e1]
          simp only [launchTargetAll, List.get?_cons_succ]
          exact hrec.2.2.1
        · rw [e2]
          simp only [launchTargetAll, List.get?_cons_succ]
          exact hrec.2.2.2

/-- Witness for C10: in the three-folder demo registry, the entry right
after folder A's result is the unconditional null. -/
theorem fanout_appends_null_witness :
    (debugTargetAll demoSel demoFolders demoOp).get? 1
      = some FanEntry.nullEntry :=
  ((fanout_appends_null_per_folder demoSel demoOp demoOp demoFolders).2.2
    0 ⟨"A", some "gcc"⟩ (by decide)).2.1
